import Mathlib

/-!
# Verification of `convert_excel_to_json.py`

Shallow embedding of the pandas ETL script `src/convert_excel_to_json.py`:

```python
df = pd.read_excel('master_price_list.xlsx')
df = df[['Brand', 'Part No', 'Root Part No', 'MRP', 'GST%']].rename(...)
df['part_no']      = df['part_no'].astype(str).str.strip()
df['root_part_no'] = df['root_part_no'].astype(str).str.strip()
df['brand']        = df['brand'].astype(str).str.strip()
df['mrp']          = pd.to_numeric(df['mrp'], errors='coerce')
df['gst_percent']  = pd.to_numeric(df['gst_percent'], errors='coerce')
df = df.dropna()
df.to_json('public/master_price_list.json', orient='records', lines=False)
print(f"Converted {len(df)} rows to public/master_price_list.json")
```

Cells are modelled as loaded by `pd.read_excel`: a blank spreadsheet cell
arrives as the float NaN, modelled here as `Cell.absent`; numeric cells as
rationals; text cells as strings.  Pandas/Python library primitives used by
the script (`astype(str)`, `str.strip`, `to_numeric(errors='coerce')`,
`dropna`, `to_json(orient='records')`) are each embedded as an executable
Lean function.
-/

namespace PriceList

/-- A dataframe cell as produced by `pd.read_excel`: a blank cell is NaN
(`absent`), otherwise a number or a text string.  -/
inductive Cell where
  | absent
  | str (s : String)
  | num (q : Rat)
  deriving DecidableEq, Repr

/-- Whitespace as stripped by Python `str.strip()` (ASCII subset: space,
tab, newline, carriage return, vertical tab, form feed). -/
def isPySpace (c : Char) : Bool :=
  c = ' ' || c = '\t' || c = '\n' || c = '\r' || c = '\x0b' || c = '\x0c'

/-- Strip leading whitespace from a character list. -/
def stripLeft (l : List Char) : List Char :=
  l.dropWhile isPySpace

/-- Strip trailing whitespace from a character list. -/
def stripRight (l : List Char) : List Char :=
  (l.reverse.dropWhile isPySpace).reverse

/-- Python `str.strip()`: remove leading and trailing whitespace.
Embeds the `.str.strip()` calls on lines 15-17 of the script. -/
def pyStrip (s : String) : String :=
  String.mk (stripRight (stripLeft s.toList))

/-- Python `str()` applied to a dataframe cell, as `astype(str)` does on
lines 15-17 of the script: the float NaN prints as the literal string
`"nan"`; a text cell is unchanged; a numeric cell prints its value. -/
def pyStr : Cell → String
  | Cell.absent => "nan"
  | Cell.str s => s
  | Cell.num q => toString q

/-- Value of a list of decimal digit characters. -/
def digitsToNat (ds : List Char) : Nat :=
  ds.foldl (fun a c => a * 10 + (c.toNat - 48)) 0

/-- Split an optional leading sign off a character list; `true` means
negative. -/
def splitSign : List Char → Bool × List Char
  | '-' :: rest => (true, rest)
  | '+' :: rest => (false, rest)
  | l => (false, l)

/-- Numeric parsing as performed by `pd.to_numeric` on a string value:
optional surrounding whitespace, optional sign, decimal mantissa (digits
with an optional fractional part, at least one digit), optional exponent.
Returns `none` when the text is not a number (the `errors='coerce'` path). -/
def parseNumeric (s : String) : Option Rat :=
  let l := stripRight (stripLeft s.toList)
  let (neg, l) := splitSign l
  let ipart := l.takeWhile Char.isDigit
  let l := l.dropWhile Char.isDigit
  let (fpart, l) :=
    match l with
    | '.' :: rest => (rest.takeWhile Char.isDigit, rest.dropWhile Char.isDigit)
    | _ => ([], l)
  if ipart.isEmpty && fpart.isEmpty then none
  else
    let mant : Rat :=
      (digitsToNat ipart : Rat) + (digitsToNat fpart : Rat) / ((10 : Rat) ^ fpart.length)
    match l with
    | [] => some (if neg then -mant else mant)
    | 'e' :: rest =>
      let (eneg, rest) := splitSign rest
      let edigits := rest.takeWhile Char.isDigit
      let rest := rest.dropWhile Char.isDigit
      if edigits.isEmpty || !rest.isEmpty then none
      else
        let scaled : Rat :=
          if eneg then mant / (10 : Rat) ^ digitsToNat edigits
          else mant * (10 : Rat) ^ digitsToNat edigits
        some (if neg then -scaled else scaled)
    | 'E' :: rest =>
      let (eneg, rest) := splitSign rest
      let edigits := rest.takeWhile Char.isDigit
      let rest := rest.dropWhile Char.isDigit
      if edigits.isEmpty || !rest.isEmpty then none
      else
        let scaled : Rat :=
          if eneg then mant / (10 : Rat) ^ digitsToNat edigits
          else mant * (10 : Rat) ^ digitsToNat edigits
        some (if neg then -scaled else scaled)
    | _ => none

/-- `pd.to_numeric(..., errors='coerce')` on one cell (lines 18-19 of the
script): a number passes through, text is parsed, NaN stays missing, and an
unparsable value becomes missing (`none`) instead of raising. -/
def toNumeric : Cell → Option Rat
  | Cell.absent => none
  | Cell.num q => some q
  | Cell.str s => parseNumeric s

/-- One dataframe row after the column projection and rename of lines 7-13:
the five selected cells, in dataframe column order. -/
structure Row where
  brand : Cell
  part_no : Cell
  root_part_no : Cell
  mrp : Cell
  gst_percent : Cell
  deriving DecidableEq, Repr

/-- A row after the cleaning assignments of lines 15-19: the three string
columns hold Python strings (never missing — `astype(str)` maps NaN to the
text `"nan"`), the two numeric columns hold the result of coercion, with
`none` standing for NaN. -/
structure CleanRow where
  brand : String
  part_no : String
  root_part_no : String
  mrp : Option Rat
  gst_percent : Option Rat
  deriving DecidableEq, Repr

/-- Lines 15-19 of the script applied to one row: `astype(str).str.strip()`
on the three string columns and `to_numeric(errors='coerce')` on the two
numeric columns. -/
def normalizeRow (r : Row) : CleanRow where
  brand := pyStrip (pyStr r.brand)
  part_no := pyStrip (pyStr r.part_no)
  root_part_no := pyStrip (pyStr r.root_part_no)
  mrp := toNumeric r.mrp
  gst_percent := toNumeric r.gst_percent

/-- One record of the output JSON array: all five fields present, both
numeric fields actual numbers. -/
structure Record where
  brand : String
  part_no : String
  root_part_no : String
  mrp : Rat
  gst_percent : Rat
  deriving DecidableEq, Repr

/-- `dropna()` (line 21) decided on one cleaned row: the row is kept iff no
column holds NaN.  The three string columns hold strings and can never be
NaN, so only the two coerced numeric columns are tested. -/
def toRecord (c : CleanRow) : Option Record :=
  match c.mrp, c.gst_percent with
  | some m, some g => some ⟨c.brand, c.part_no, c.root_part_no, m, g⟩
  | _, _ => none

/-- Whether an input row survives the pipeline (cleaning then `dropna`). -/
def survives (r : Row) : Bool :=
  (toRecord (normalizeRow r)).isSome

/-- Lines 15-21 of the script over the whole table: clean every row, then
drop the rows containing NaN, preserving order. -/
def convertRows (rows : List Row) : List Record :=
  rows.filterMap (fun r => toRecord (normalizeRow r))

/-- The raw table as loaded by `pd.read_excel` (line 5): a header row of
column names and the data rows, each row one cell per column. -/
structure RawTable where
  headers : List String
  rows : List (List Cell)
  deriving Repr

/-- Errors that abort the script: `read_excel` failing (file missing,
unreadable, not a spreadsheet) or the column selection `df[[...]]` raising
`KeyError` on a missing column. -/
inductive ConvError where
  | sourceReadError
  | schemaError
  deriving DecidableEq, Repr

/-- Index of a named column in the table, as pandas column lookup. -/
def colIdx (t : RawTable) (name : String) : Option Nat :=
  t.headers.indexOf? name

/-- Extract the five selected cells of one raw data row, given the column
indices of `Brand`, `Part No`, `Root Part No`, `MRP`, `GST%`. -/
def extractRow (ib ip ir im ig : Nat) (row : List Cell) : Row where
  brand := row.getD ib Cell.absent
  part_no := row.getD ip Cell.absent
  root_part_no := row.getD ir Cell.absent
  mrp := row.getD im Cell.absent
  gst_percent := row.getD ig Cell.absent

/-- Lines 7-13 of the script: select the columns `Brand`, `Part No`,
`Root Part No`, `MRP`, `GST%` (a `KeyError` — `schemaError` — if any is
missing) and rename them to the five output field names. -/
def project (t : RawTable) : Except ConvError (List Row) :=
  match colIdx t "Brand", colIdx t "Part No", colIdx t "Root Part No",
        colIdx t "MRP", colIdx t "GST%" with
  | some ib, some ip, some ir, some im, some ig =>
    Except.ok (t.rows.map (extractRow ib ip ir im ig))
  | _, _, _, _, _ => Except.error ConvError.schemaError

/-- The whole in-memory transformation: projection/rename, cleaning,
`dropna`. -/
def convert (t : RawTable) : Except ConvError (List Record) :=
  (project t).map convertRows

/-- A JSON value as emitted by `df.to_json`: a string, a number, or null
(which `to_json` emits for NaN cells). -/
inductive JVal where
  | jstr (s : String)
  | jnum (q : Rat)
  | jnull
  deriving DecidableEq, Repr

/-- One output object of `to_json(orient='records')` (line 23), as an
ordered key-value list: keys follow dataframe column order. -/
def toJsonObj (r : Record) : List (String × JVal) :=
  [("brand", JVal.jstr r.brand),
   ("part_no", JVal.jstr r.part_no),
   ("root_part_no", JVal.jstr r.root_part_no),
   ("mrp", JVal.jnum r.mrp),
   ("gst_percent", JVal.jnum r.gst_percent)]

/-- The content of the output file: the JSON array of record objects. -/
def FileContent := List (List (String × JVal))

/-- The whole script run against a filesystem holding (optionally) a prior
output file.  `loadResult` is the outcome of `pd.read_excel` (line 5): an
exception there, or in the column selection (line 7), propagates and the
script never reaches `to_json` (line 23), so the output file is untouched.
On success the output file is overwritten and the row count reported. -/
def runScript (loadResult : Except ConvError RawTable)
    (outFile : Option FileContent) : Except ConvError Nat × Option FileContent :=
  match loadResult with
  | Except.error e => (Except.error e, outFile)
  | Except.ok t =>
    match project t with
    | Except.error e => (Except.error e, outFile)
    | Except.ok rows =>
      let recs := convertRows rows
      (Except.ok recs.length, some (recs.map toJsonObj))

/-- The record an input row turns into when it survives: cleaned strings and
the coerced numeric values (defaulting to 0 where coercion failed, a case
that only arises for dropped rows). -/
def mkRecord (r : Row) : Record where
  brand := (normalizeRow r).brand
  part_no := (normalizeRow r).part_no
  root_part_no := (normalizeRow r).root_part_no
  mrp := ((normalizeRow r).mrp).getD 0
  gst_percent := ((normalizeRow r).gst_percent).getD 0

/-- The condition the spec states for row survival: both numeric fields
parsable and the three string cells non-absent. -/
def requiredPresent (r : Row) : Prop :=
  (toNumeric r.mrp).isSome = true ∧ (toNumeric r.gst_percent).isSome = true ∧
  r.brand ≠ Cell.absent ∧ r.part_no ≠ Cell.absent ∧ r.root_part_no ≠ Cell.absent

instance (r : Row) : Decidable (requiredPresent r) := by
  unfold requiredPresent; infer_instance

/-- Row survival is decided by the two coerced numeric columns alone. -/
theorem survives_eq (r : Row) :
    survives r = ((toNumeric r.mrp).isSome && (toNumeric r.gst_percent).isSome) := by
  simp only [survives, toRecord, normalizeRow]
  cases toNumeric r.mrp <;> cases toNumeric r.gst_percent <;> rfl

/-- `dropna` on one cleaned row, rephrased through `survives` and
`mkRecord`. -/
theorem toRecord_normalizeRow_eq (r : Row) :
    toRecord (normalizeRow r) = if survives r then some (mkRecord r) else none := by
  simp only [survives, toRecord, normalizeRow, mkRecord]
  cases toNumeric r.mrp <;> cases toNumeric r.gst_percent <;> rfl

/-- Every output record originates from some input row whose cleaning
produced exactly it. -/
theorem mem_convertRows {rows : List Row} {rec : Record}
    (h : rec ∈ convertRows rows) :
    ∃ r ∈ rows, toRecord (normalizeRow r) = some rec := by
  simpa [convertRows] using List.mem_filterMap.mp h

/-- Inversion of `toRecord`: a produced record carries the coerced numeric
values and the cleaned strings of its source row. -/
theorem toRecord_eq_some {c : CleanRow} {rec : Record}
    (h : toRecord c = some rec) :
    c.mrp = some rec.mrp ∧ c.gst_percent = some rec.gst_percent ∧
      rec.brand = c.brand ∧ rec.part_no = c.part_no ∧
      rec.root_part_no = c.root_part_no := by
  cases hm : c.mrp with
  | none => simp [toRecord, hm] at h
  | some m =>
    cases hg : c.gst_percent with
    | none => simp [toRecord, hm, hg] at h
    | some g =>
      simp only [toRecord, hm, hg, Option.some.injEq] at h
      subst h
      exact ⟨rfl, rfl, rfl, rfl, rfl⟩

/-- The pipeline output is the per-position map of `mkRecord` over the
order-preserving filter of surviving rows. -/
theorem convertRows_eq_filter (rows : List Row) :
    convertRows rows = (rows.filter survives).map mkRecord := by
  induction rows with
  | nil => rfl
  | cons r rs ih =>
    simp only [convertRows, List.filterMap_cons, List.filter_cons] at ih ⊢
    rw [toRecord_normalizeRow_eq]
    cases hs : survives r <;> simp [ih]

/-! ## Concrete rows and tables used as test vectors -/

/-- A fully valid row, as in the spec's example scenario. -/
def rowAcme : Row :=
  ⟨Cell.str "Acme", Cell.str "P1", Cell.str "R1", Cell.num 100, Cell.num 18⟩

/-- The record `rowAcme` converts to. -/
def recAcme : Record := ⟨"Acme", "P1", "R1", 100, 18⟩

/-- A row whose `Brand` cell is blank but whose numeric cells are valid. -/
def rowNoBrand : Row :=
  ⟨Cell.absent, Cell.str "P2", Cell.str "R2", Cell.num 100, Cell.num 18⟩

/-- A row agreeing with `rowNoBrand` on the two numeric cells but with all
three string cells present. -/
def rowNoBrandAlt : Row :=
  ⟨Cell.str "Bolt", Cell.str "X2", Cell.str "Y2", Cell.num 100, Cell.num 18⟩

/-- A row with a negative `MRP` value and valid remaining cells. -/
def rowNegMrp : Row :=
  ⟨Cell.str "Acme", Cell.str "P3", Cell.str "R3", Cell.num (-5), Cell.num 18⟩

/-- A well-formed one-row table carrying `rowAcme`. -/
def tableAcme : RawTable :=
  ⟨["Brand", "Part No", "Root Part No", "MRP", "GST%"],
   [[Cell.str "Acme", Cell.str "P1", Cell.str "R1", Cell.num 100, Cell.num 18]]⟩

/-- A table lacking the required `Brand` column. -/
def tableMissingBrand : RawTable :=
  ⟨["Part No", "Root Part No", "MRP", "GST%"],
   [[Cell.str "P1", Cell.str "R1", Cell.num 100, Cell.num 18]]⟩

/-! ## Claim C1 -/

/-- C1 as stated fails on the code: a row whose `Brand` cell is blank but
whose numeric cells parse does appear in the output (its brand becomes the
string `"nan"`), so survival is not equivalent to the spec's condition that
the three string cells be non-absent. -/
theorem c1_counterexample :
    ¬ (survives rowNoBrand = true ↔ requiredPresent rowNoBrand) := by
  decide

/-- C1 (amended): a row appears in the output iff `mrp` and `gst_percent`
are both numerically parsable; the three string cells play no role in
filtering. -/
theorem c1_filtering_amended (r : Row) :
    survives r = true ↔
      (toNumeric r.mrp).isSome = true ∧ (toNumeric r.gst_percent).isSome = true := by
  rw [survives_eq, Bool.and_eq_true]

/-! ## Claim C4 -/

/-- C4 as stated fails on the code: a one-row table whose single row has a
blank `Brand` cell but parsable numerics yields one output record, so the
output count equals the input count even though a required field is
missing. -/
theorem c4_counterexample :
    ¬ ((convertRows [rowNoBrand]).length ≤ ([rowNoBrand] : List Row).length ∧
       ((convertRows [rowNoBrand]).length = ([rowNoBrand] : List Row).length ↔
         ∀ r ∈ ([rowNoBrand] : List Row), requiredPresent r)) := by
  decide

/-- C4 (amended): the output count never exceeds the input count, with
equality iff every input row survives, i.e. iff every row's `mrp` and
`gst_percent` coerce to numbers; missing string cells do not reduce the
count. -/
theorem c4_count_amended (rows : List Row) :
    (convertRows rows).length ≤ rows.length ∧
      ((convertRows rows).length = rows.length ↔ ∀ r ∈ rows, survives r = true) := by
  constructor
  · exact List.length_filterMap_le _ rows
  · rw [convertRows_eq_filter, List.length_map]
    exact List.filter_length_eq_length

/-! ## Claim C5 -/

/-- C5 as stated fails on the code: nothing rejects a negative `MRP`, so a
row with `MRP = -5` survives and its output `mrp` field is negative. -/
theorem c5_counterexample :
    ¬ (∀ rec ∈ convertRows [rowNegMrp], 0 ≤ rec.mrp) := by
  intro h
  have := h ⟨"Acme", "P3", "R3", -5, 18⟩ (List.mem_singleton.mpr rfl)
  exact absurd this (by norm_num)

/-- C5 (amended): in every output record, `mrp` is a decimal number
obtained by successful numeric coercion of the source cell; it is not
constrained to be non-negative. -/
theorem c5_mrp_amended (rows : List Row) (rec : Record)
    (h : rec ∈ convertRows rows) :
    ∃ r ∈ rows, toNumeric r.mrp = some rec.mrp := by
  obtain ⟨r, hr, heq⟩ := mem_convertRows h
  exact ⟨r, hr, (toRecord_eq_some heq).1⟩

/-- Witness for C5 (amended) at the one-row table `[rowAcme]`. -/
theorem c5_mrp_amended_witness :
    ∃ r ∈ [rowAcme], toNumeric r.mrp = some recAcme.mrp :=
  c5_mrp_amended [rowAcme] recAcme (List.mem_singleton.mpr rfl)

/-! ## Claim C7 -/

/-- C7: the output array is the order-preserving image of the surviving
input rows — relative order in the output equals relative order in the
input. -/
theorem c7_order_preservation (rows : List Row) :
    convertRows rows = (rows.filter survives).map mkRecord :=
  convertRows_eq_filter rows

/-! ## Claim C8: strip idempotence -/

/-- A prefix of a `dropWhile p` result is itself a fixed point of
`dropWhile p`. -/
theorem dropWhile_eq_self_of_prefix {α} (p : α → Bool) {l m : List α}
    (h : m <+: l.dropWhile p) : m.dropWhile p = m := by
  cases m with
  | nil => rfl
  | cons a t =>
    obtain ⟨r, hr⟩ := h
    have hnot := List.head?_dropWhile_not p l
    rw [← hr] at hnot
    have ha : p a = false := hnot
    simp [List.dropWhile_cons, ha]

/-- `dropWhile` is idempotent. -/
theorem dropWhile_idem {α} (p : α → Bool) (l : List α) :
    (l.dropWhile p).dropWhile p = l.dropWhile p :=
  dropWhile_eq_self_of_prefix p (List.prefix_refl _)

/-- Stripping the right end of an already left-stripped character list and
then restripping both ends changes nothing. -/
theorem stripRight_stripLeft_idem (l : List Char) :
    stripRight (stripLeft (stripRight (stripLeft l))) = stripRight (stripLeft l) := by
  have hpre : stripRight (stripLeft l) <+: l.dropWhile isPySpace := by
    have h := List.reverse_prefix.mpr
      (List.dropWhile_suffix (l := (stripLeft l).reverse) isPySpace)
    rwa [List.reverse_reverse] at h
  have h1 : stripLeft (stripRight (stripLeft l)) = stripRight (stripLeft l) :=
    dropWhile_eq_self_of_prefix isPySpace hpre
  rw [h1]
  unfold stripRight
  rw [List.reverse_reverse, dropWhile_idem]

/-- C8: the string-normalization step is idempotent — stripping a string
twice yields the same result as stripping it once. -/
theorem c8_strip_idempotent (s : String) :
    pyStrip (pyStrip s) = pyStrip s := by
  show String.mk (stripRight (stripLeft (stripRight (stripLeft s.toList)))) =
    String.mk (stripRight (stripLeft s.toList))
  exact congrArg String.mk (stripRight_stripLeft_idem s.toList)

/-! ## Claim C2 -/

/-- C2: every output record serializes with all five fields present — no
null values among them — and its two numeric fields are the results of
successful numeric coercion of the source row's cells. -/
theorem c2_output_invariant (rows : List Row) (rec : Record)
    (h : rec ∈ convertRows rows) :
    (toJsonObj rec).map Prod.fst =
        ["brand", "part_no", "root_part_no", "mrp", "gst_percent"] ∧
    (∀ p ∈ toJsonObj rec, p.2 ≠ JVal.jnull) ∧
    ∃ r ∈ rows, toNumeric r.mrp = some rec.mrp ∧
      toNumeric r.gst_percent = some rec.gst_percent := by
  refine ⟨rfl, ?_, ?_⟩
  · intro p hp
    simp only [toJsonObj, List.mem_cons, List.not_mem_nil, or_false] at hp
    rcases hp with h1 | h1 | h1 | h1 | h1 <;> subst h1 <;> simp
  · obtain ⟨r, hr, heq⟩ := mem_convertRows h
    obtain ⟨hm, hg, -⟩ := toRecord_eq_some heq
    exact ⟨r, hr, hm, hg⟩

/-- Witness for C2 at the one-row table `[rowAcme]`. -/
theorem c2_output_invariant_witness :
    (toJsonObj recAcme).map Prod.fst =
        ["brand", "part_no", "root_part_no", "mrp", "gst_percent"] ∧
    (∀ p ∈ toJsonObj recAcme, p.2 ≠ JVal.jnull) ∧
    ∃ r ∈ [rowAcme], toNumeric r.mrp = some recAcme.mrp ∧
      toNumeric r.gst_percent = some recAcme.gst_percent :=
  c2_output_invariant [rowAcme] recAcme (List.mem_singleton.mpr rfl)

/-! ## Claim C3 -/

/-- C3: for every surviving row of a successfully converted table, the
output object's keys are exactly `brand`, `part_no`, `root_part_no`,
`mrp`, `gst_percent`, in dataframe column order — no extra keys, none
missing. -/
theorem c3_keys (t : RawTable) (recs : List Record)
    (_h : convert t = Except.ok recs) (rec : Record) (_hrec : rec ∈ recs) :
    (toJsonObj rec).map Prod.fst =
      ["brand", "part_no", "root_part_no", "mrp", "gst_percent"] := rfl

/-- Witness for C3 at the concrete table `tableAcme`. -/
theorem c3_keys_witness :
    (toJsonObj recAcme).map Prod.fst =
      ["brand", "part_no", "root_part_no", "mrp", "gst_percent"] :=
  c3_keys tableAcme [recAcme] rfl recAcme (List.mem_singleton.mpr rfl)

/-! ## Claim C6 -/

/-- A sample prior content of the output file. -/
def prevFile : FileContent := [toJsonObj recAcme]

/-- C6: if loading fails, or the column selection fails on a missing
required column, the script aborts with the error and the output file keeps
whatever content it had — it is neither created nor modified. -/
theorem c6_no_partial_writes (outFile : Option FileContent) :
    (∀ e, (runScript (Except.error e) outFile).2 = outFile) ∧
    (∀ t, project t = Except.error ConvError.schemaError →
      (runScript (Except.ok t) outFile).2 = outFile) := by
  constructor
  · intro e
    rfl
  · intro t ht
    simp [runScript, ht]

/-- Witness for C6: a read failure and a table missing the `Brand` column
each leave a pre-existing output file untouched. -/
theorem c6_no_partial_writes_witness :
    (runScript (Except.error ConvError.sourceReadError) (some prevFile)).2 = some prevFile ∧
    (runScript (Except.ok tableMissingBrand) (some prevFile)).2 = some prevFile := by
  obtain ⟨h1, h2⟩ := c6_no_partial_writes (some prevFile)
  exact ⟨h1 ConvError.sourceReadError, h2 tableMissingBrand rfl⟩

/-! ## Claim C9 -/

/-- The table carries all five required columns. -/
def hasFive (t : RawTable) : Prop :=
  (colIdx t "Brand").isSome = true ∧ (colIdx t "Part No").isSome = true ∧
  (colIdx t "Root Part No").isSome = true ∧ (colIdx t "MRP").isSome = true ∧
  (colIdx t "GST%").isSome = true

instance (t : RawTable) : Decidable (hasFive t) := by
  unfold hasFive; infer_instance

/-- The five required cells of the table's `k`-th data row, or `none` when
a required column is missing. -/
def rowFive (t : RawTable) (k : Nat) : Option Row :=
  match colIdx t "Brand", colIdx t "Part No", colIdx t "Root Part No",
        colIdx t "MRP", colIdx t "GST%" with
  | some ib, some ip, some ir, some im, some ig =>
    some (extractRow ib ip ir im ig (t.rows.getD k []))
  | _, _, _, _, _ => none

/-- A one-row table with a trailing extra `Notes` column. -/
def tableExtraA : RawTable :=
  ⟨["Brand", "Part No", "Root Part No", "MRP", "GST%", "Notes"],
   [[Cell.str "Acme", Cell.str "P1", Cell.str "R1", Cell.num 100, Cell.num 18,
     Cell.str "x"]]⟩

/-- The same five-column content as `tableExtraA`, with a different extra
column placed first. -/
def tableExtraB : RawTable :=
  ⟨["Junk", "Brand", "Part No", "Root Part No", "MRP", "GST%"],
   [[Cell.num 999, Cell.str "Acme", Cell.str "P1", Cell.str "R1", Cell.num 100,
     Cell.num 18]]⟩

/-- C9: extra columns are ignored — two tables that both carry the five
required columns and agree on them row for row convert identically, and a
full script run on either writes the same file and reports the same
count. -/
theorem c9_extra_columns_ignored (t1 t2 : RawTable) (outFile : Option FileContent)
    (h1 : hasFive t1) (h2 : hasFive t2)
    (hlen : t1.rows.length = t2.rows.length)
    (hcells : ∀ k, k < t1.rows.length → rowFive t1 k = rowFive t2 k) :
    convert t1 = convert t2 ∧
      runScript (Except.ok t1) outFile = runScript (Except.ok t2) outFile := by
  obtain ⟨hb1, hp1, hr1, hm1, hg1⟩ := h1
  obtain ⟨hb2, hp2, hr2, hm2, hg2⟩ := h2
  obtain ⟨ib1, hib1⟩ := Option.isSome_iff_exists.mp hb1
  obtain ⟨ip1, hip1⟩ := Option.isSome_iff_exists.mp hp1
  obtain ⟨ir1, hir1⟩ := Option.isSome_iff_exists.mp hr1
  obtain ⟨im1, him1⟩ := Option.isSome_iff_exists.mp hm1
  obtain ⟨ig1, hig1⟩ := Option.isSome_iff_exists.mp hg1
  obtain ⟨ib2, hib2⟩ := Option.isSome_iff_exists.mp hb2
  obtain ⟨ip2, hip2⟩ := Option.isSome_iff_exists.mp hp2
  obtain ⟨ir2, hir2⟩ := Option.isSome_iff_exists.mp hr2
  obtain ⟨im2, him2⟩ := Option.isSome_iff_exists.mp hm2
  obtain ⟨ig2, hig2⟩ := Option.isSome_iff_exists.mp hg2
  have hproj : project t1 = project t2 := by
    simp only [project, hib1, hip1, hir1, him1, hig1, hib2, hip2, hir2, him2, hig2]
    congr 1
    apply List.ext_getElem
    · simp [hlen]
    · intro k hk1 hk2
      have hk : k < t1.rows.length := by simpa using hk1
      have hk2' : k < t2.rows.length := hlen ▸ hk
      have e1 : rowFive t1 k = some (extractRow ib1 ip1 ir1 im1 ig1 t1.rows[k]) := by
        simp only [rowFive, hib1, hip1, hir1, him1, hig1]
        rw [List.getD_eq_getElem?_getD, List.getElem?_eq_getElem hk]
        rfl
      have e2 : rowFive t2 k = some (extractRow ib2 ip2 ir2 im2 ig2 t2.rows[k]) := by
        simp only [rowFive, hib2, hip2, hir2, him2, hig2]
        rw [List.getD_eq_getElem?_getD, List.getElem?_eq_getElem hk2']
        rfl
      have hag := hcells k hk
      rw [e1, e2] at hag
      simp only [List.getElem_map]
      exact Option.some.inj hag
  refine ⟨?_, ?_⟩
  · simp only [convert, hproj]
  · simp only [runScript, hproj]

/-- Witness for C9: the two concrete one-row tables with different extra
columns yield the same conversion and the same script run. -/
theorem c9_extra_columns_ignored_witness :
    convert tableExtraA = convert tableExtraB ∧
      runScript (Except.ok tableExtraA) none = runScript (Except.ok tableExtraB) none :=
  c9_extra_columns_ignored tableExtraA tableExtraB none
    (by decide) (by decide) rfl (by decide)

/-! ## Claim C10 -/

/-- C10: row survival depends only on the two numeric cells — a row is
written iff numeric coercion of `mrp` and `gst_percent` both succeed, any
row agreeing on those two cells survives or is dropped identically
regardless of its string cells, and a blank string cell surfaces in the
output record as the literal string `"nan"` rather than dropping the
row. -/
theorem c10_survival_numeric_only (r r' : Row)
    (hm : r'.mrp = r.mrp) (hg : r'.gst_percent = r.gst_percent) :
    survives r = ((toNumeric r.mrp).isSome && (toNumeric r.gst_percent).isSome) ∧
    survives r' = survives r ∧
    (r.brand = Cell.absent → (mkRecord r).brand = "nan") := by
  refine ⟨survives_eq r, ?_, ?_⟩
  · rw [survives_eq, survives_eq, hm, hg]
  · intro hb
    have hbr : (mkRecord r).brand = pyStrip (pyStr r.brand) := rfl
    rw [hbr, hb]
    rfl

/-- Witness for C10: the blank-brand row survives on its numerics alone,
in step with a fully populated row sharing them, and its output brand is
the string `"nan"`. -/
theorem c10_survival_numeric_only_witness :
    survives rowNoBrand =
        ((toNumeric rowNoBrand.mrp).isSome && (toNumeric rowNoBrand.gst_percent).isSome) ∧
      survives rowNoBrandAlt = survives rowNoBrand ∧
      (mkRecord rowNoBrand).brand = "nan" := by
  obtain ⟨h1, h2, h3⟩ := c10_survival_numeric_only rowNoBrand rowNoBrandAlt rfl rfl
  exact ⟨h1, h2, h3 rfl⟩

end PriceList
